import Mathlib

/-!
Shallow embedding of the streaming audio bridge of the cXML realtime agent
stream repository.

The embedding covers the two components the specification's claims are about:

* the `SignalWireRealtimeTransportLayer` adapter of `src/src/index.ts`
  (mark processing, outbound audio chunk accounting, and the interruption
  protocol), and
* the pair registry stream handlers: the `pairs` map of
  `src/src/routes/streaming.ts` and the `CONFS` map of the pair-registry
  variant in `src/src/index.ts` (attach, media forwarding, start validation,
  and close-time teardown).

JavaScript strings are modelled as Lean strings whose operations are carried
out on their character lists, so that every definition computes by structural
recursion; JavaScript numbers that the bridge manipulates are rationals
(the chunk counter advances by `byteLength / 8`).
-/

/-- Caller roles of the two legs of a paired call
(`type Role = 'a' | 'b'` in src/src/routes/streaming.ts). -/
inductive Role where
  | a
  | b
  deriving DecidableEq

/-- `opposite` from src/src/routes/streaming.ts: the other role of a pair. -/
def opposite : Role → Role
  | Role.a => Role.b
  | Role.b => Role.a

/-- JavaScript `x || dflt` on an optional string field: a missing field and the
empty string are falsy and yield the default. -/
def jsOr (s : Option String) (dflt : String) : String :=
  match s with
  | none => dflt
  | some v => if v = "" then dflt else v

/-- JavaScript truthiness of a nullable string (`null` and `""` are falsy). -/
def jsTruthy : Option String → Bool
  | none => false
  | some s => !s.toList.isEmpty

/-- Character-level model of JavaScript `String.prototype.startsWith`:
`charsPrefix pre s` is true when `pre` is a prefix of `s`. -/
def charsPrefix : List Char → List Char → Bool
  | [], _ => true
  | _ :: _, [] => false
  | p :: ps, x :: xs => if p = x then charsPrefix ps xs else false

/-- Character-level model of JavaScript `String.prototype.includes` for a
single-character argument. -/
def charsContains (c : Char) : List Char → Bool
  | [] => false
  | x :: xs => if x = c then true else charsContains c xs

/-- Character-level model of JavaScript `String.prototype.split` on a
single-character separator. -/
def splitChars (c : Char) : List Char → List (List Char)
  | [] => [[]]
  | x :: xs =>
    if x = c then [] :: splitChars c xs
    else
      match splitChars c xs with
      | [] => [[x]]
      | g :: gs => (x :: g) :: gs

/-- Value of a decimal digit string, accumulator style. -/
def digitsVal : List Char → Nat → Nat
  | [], acc => acc
  | c :: cs, acc => digitsVal cs (acc * 10 + (c.toNat - 48))

/-- Model of JavaScript `Number(s)` restricted to the strings this system
produces: the empty string is `0`, a decimal digit string is its value, and
any other string is NaN, i.e. not a finite number (`none`). -/
def jsNumber? (cs : List Char) : Option ℚ :=
  if cs.isEmpty then some 0
  else if cs.all Char.isDigit then some (digitsVal cs 0 : ℚ)
  else none

/-- `Number(x)` where `x` may additionally be `undefined` (an out-of-range
array index), which is NaN. -/
def jsNumberOpt : Option (List Char) → Option ℚ
  | none => none
  | some cs => jsNumber? cs

/-- Mutable state of `SignalWireRealtimeTransportLayer` (src/src/index.ts):
the fields `#streamSid`, `#audioChunkCount`, `#lastPlayedChunkCount` and
`#previousItemId`. -/
structure SWState where
  streamSid : Option String
  audioChunkCount : ℚ
  lastPlayedChunkCount : ℚ
  previousItemId : Option String
  deriving DecidableEq

/-- Initial field values of `SignalWireRealtimeTransportLayer`. -/
def swInit : SWState :=
  { streamSid := none, audioChunkCount := 0, lastPlayedChunkCount := 0,
    previousItemId := none }

/-- The `case 'mark'` branch of the SignalWire message listener installed in
`SignalWireRealtimeTransportLayer.connect` (src/src/index.ts): a name that
does not start with `"done:"` but contains `':'` carries a chunk count after
the first `':'`; when that count is a finite number it overwrites
`#lastPlayedChunkCount`, otherwise the mark is logged and ignored; a name
starting with `"done:"` resets `#lastPlayedChunkCount` to `0`. -/
def processMark (st : SWState) (name : String) : SWState :=
  let cs := name.toList
  if !charsPrefix "done:".toList cs && charsContains ':' cs then
    match jsNumberOpt ((splitChars ':' cs).get? 1) with
    | some count => { st with lastPlayedChunkCount := count }
    | none => st
  else if charsPrefix "done:".toList cs then
    { st with lastPlayedChunkCount := 0 }
  else st

/-- A message sent to the SignalWire websocket by the transport layer. A media
message is recorded by its payload's byte length and a mark message, whose
wire name is `"<item>:<count>"`, by those two components. -/
inductive SWOut where
  | media (streamSid : Option String) (byteLength : Nat)
  | mark (streamSid : Option String) (item : String) (count : ℚ)
  | clear (streamSid : Option String)
  deriving DecidableEq

/-- Whether a transport-layer message is a buffer-clear instruction. -/
def SWOut.isClear : SWOut → Bool
  | SWOut.clear _ => true
  | _ => false

/-- JavaScript template-literal rendering of the nullable `currentItemId`
(`null` prints as `"null"`). -/
def itemIdString : Option String → String
  | none => "null"
  | some s => s

/-- `SignalWireRealtimeTransportLayer._onAudio` (src/src/index.ts): on an
audio delta of `byteLength` bytes for utterance `currentItemId`, reset
`#previousItemId` and `#audioChunkCount` when the item id changed to a truthy
one, advance the chunk counter by `byteLength / 8`, and send the media frame
followed by a tracking mark named `"<currentItemId>:<audioChunkCount>"`. -/
def onAudio (st : SWState) (currentItemId : Option String) (byteLength : Nat) :
    SWState × List SWOut :=
  let st1 :=
    if st.previousItemId ≠ currentItemId ∧ jsTruthy currentItemId = true then
      { st with previousItemId := currentItemId, audioChunkCount := 0 }
    else st
  let st2 := { st1 with audioChunkCount := st1.audioChunkCount + (byteLength : ℚ) / 8 }
  (st2,
    [SWOut.media st.streamSid byteLength,
     SWOut.mark st.streamSid (itemIdString currentItemId) st2.audioChunkCount])

/-- The effects of `SignalWireRealtimeTransportLayer._interrupt`: the `clear`
event sent to the SignalWire socket and the base-class truncation call. -/
inductive InterruptAction where
  | clearSignalWire (streamSid : Option String)
  | truncateUpstream (elapsedMs : ℚ) (cancelOngoing : Bool)
  deriving DecidableEq

/-- `SignalWireRealtimeTransportLayer._interrupt` (src/src/index.ts): it
ignores the elapsed time it was passed, sends a `clear` event to the
SignalWire socket, and invokes the base-class truncation with
`#lastPlayedChunkCount + 50` (a 50 ms buffer allowance). -/
def interrupt (st : SWState) (_elapsedTime : ℚ) (cancelOngoingResponse : Bool) :
    List InterruptAction :=
  [InterruptAction.clearSignalWire st.streamSid,
   InterruptAction.truncateUpstream (st.lastPlayedChunkCount + 50)
     cancelOngoingResponse]

/-- A message the pair-bridge route sends to a SignalWire leg. -/
inductive BridgeOut where
  | clear
  | media (payload : String)
  deriving DecidableEq

/-- The `response.output_audio.delta` branch of the AI message handler in
`connectOpenAI` (src/src/routes/streaming.ts): when the target leg is absent
the delta is dropped before the speaking flag is touched; otherwise, when the
source leg was not already speaking, it is marked speaking and a buffer clear
is emitted before the audio; while already speaking the audio is emitted
alone. Returns the new `aiSpeaking` flag and the emitted messages. -/
def onOutputAudioDelta (aiSpeaking : Bool) (targetPresent : Bool) (delta : String) :
    Bool × List BridgeOut :=
  if !targetPresent then (aiSpeaking, [])
  else if !aiSpeaking then (true, [BridgeOut.clear, BridgeOut.media delta])
  else (aiSpeaking, [BridgeOut.media delta])

/-- The `response.output_audio.done` branch of the same handler: the leg
stops speaking. -/
def onOutputAudioDone (_aiSpeaking : Bool) : Bool := false

/-- Association-list model of a JavaScript `Map` with string keys: lookup. -/
def rlookup {α : Type} : List (String × α) → String → Option α
  | [], _ => none
  | (k', v) :: rest, k => if k' = k then some v else rlookup rest k

/-- Association-list model of `Map.delete`. -/
def rerase {α : Type} : List (String × α) → String → List (String × α)
  | [], _ => []
  | (k', v) :: rest, k => if k' = k then rerase rest k else (k', v) :: rerase rest k

/-- Association-list model of `Map.set` (observationally equal to the
JavaScript map through `rlookup`/`rerase`). -/
def rinsert {α : Type} (ps : List (String × α)) (k : String) (v : α) :
    List (String × α) :=
  (k, v) :: rerase ps k

/-- A `Pair` of src/src/routes/streaming.ts, reduced to its two role slots;
legs are identified by an opaque connection id. (`conf` is the registry key
and `createdAt` is never read.) -/
structure Pair1 where
  a : Option Nat
  b : Option Nat
  deriving DecidableEq

/-- The slot of a role. -/
def slot1 (p : Pair1) : Role → Option Nat
  | Role.a => p.a
  | Role.b => p.b

/-- Installing a leg into its role slot. -/
def setSlot1 (p : Pair1) (r : Role) (cid : Nat) : Pair1 :=
  match r with
  | Role.a => { p with a := some cid }
  | Role.b => { p with b := some cid }

/-- Clearing a role slot. -/
def clearSlot1 (p : Pair1) (r : Role) : Pair1 :=
  match r with
  | Role.a => { p with a := none }
  | Role.b => { p with b := none }

/-- The `pairs` registry of src/src/routes/streaming.ts. -/
abbrev Registry1 := List (String × Pair1)

/-- `getPair(conf)` followed by `pair.a = leg` / `pair.b = leg` in the `start`
handler of src/src/routes/streaming.ts: create the pair on first touch and
install the leg in its role slot (last-writer-wins). -/
def attach1 (ps : Registry1) (conf : String) (r : Role) (cid : Nat) : Registry1 :=
  rinsert ps conf (setSlot1 ((rlookup ps conf).getD { a := none, b := none }) r cid)

/-- The registry part of the websocket `close` handler of
src/src/routes/streaming.ts: clear the departed leg's role slot and delete
the pair when both slots are thereby empty. -/
def detach1 (ps : Registry1) (conf : String) (r : Role) : Registry1 :=
  match rlookup ps conf with
  | none => ps
  | some p =>
    if (clearSlot1 p r).a = none ∧ (clearSlot1 p r).b = none then rerase ps conf
    else rinsert ps conf (clearSlot1 p r)

/-- Per-connection state consulted by the `media` handler of
src/src/routes/streaming.ts: whether `leg.aiWs` has been set and whether
`leg.aiReady` is true. -/
structure LegConn where
  aiWs : Bool
  aiReady : Bool
  deriving DecidableEq

/-- The `media` branch of the SignalWire message handler
(src/src/routes/streaming.ts): while the leg is unset (no `start` processed)
or its AI socket is missing or not ready, the frame is dropped; otherwise a
non-empty payload is forwarded as an `input_audio_buffer.append`. Returns the
(unchanged) leg binding, the payload forwarded to the AI socket if any, and
whether the handler closed the connection (it never does). The handler keeps
no queue: a dropped frame is gone. -/
def handleMedia1 (leg : Option LegConn) (payload : Option String) :
    Option LegConn × Option String × Bool :=
  match leg with
  | none => (none, none, false)
  | some l =>
    if !l.aiWs || !l.aiReady then (some l, none, false)
    else
      match payload with
      | none => (some l, none, false)
      | some p => if p = "" then (some l, none, false) else (some l, some p, false)

/-- Outcome of a `start` event: `rejected` means the handler called
`swWs.close()` and returned without registering anything. -/
inductive StartOutcome where
  | rejected
  | accepted (conf : String) (role : Role)
  deriving DecidableEq

/-- The `start` branch of src/src/routes/streaming.ts: the pairing key
defaults to `""` and the role to `"a"` (JavaScript `||`); an empty key or a
role other than `"a"`/`"b"` closes the connection; otherwise the leg is
attached and an OpenAI session is created via `connectOpenAI`. The returned
flag records whether that session creation was initiated. -/
def handleStart1 (ps : Registry1) (confParam roleParam : Option String) (cid : Nat) :
    Registry1 × StartOutcome × Bool :=
  let conf := jsOr confParam ""
  let roleRaw := jsOr roleParam "a"
  if conf = "" ∨ (roleRaw ≠ "a" ∧ roleRaw ≠ "b") then (ps, StartOutcome.rejected, false)
  else
    let r := if roleRaw = "a" then Role.a else Role.b
    (attach1 ps conf r cid, StartOutcome.accepted conf r, true)

/-- A `ConfState` of the pair-registry variant in src/src/index.ts: the two
leg slots and whether the two per-direction AI clients have been created. -/
structure ConfState where
  a : Option Nat
  b : Option Nat
  clientAB : Bool
  clientBA : Bool
  deriving DecidableEq

/-- The slot of a role in the pair-registry variant. -/
def slot2 (st : ConfState) : Role → Option Nat
  | Role.a => st.a
  | Role.b => st.b

/-- Clearing a role slot in the pair-registry variant. -/
def clearSlot2 (st : ConfState) (r : Role) : ConfState :=
  match r with
  | Role.a => { st with a := none }
  | Role.b => { st with b := none }

/-- The `CONFS` registry of the pair-registry variant in src/src/index.ts. -/
abbrev Registry2 := List (String × ConfState)

/-- Session teardown calls made by the `close` handler of the pair-registry
variant in src/src/index.ts. -/
inductive CloseAction where
  | disconnectAB
  | disconnectBA
  deriving DecidableEq

/-- The registry part of the `start` branch of the pair-registry variant
(src/src/index.ts): install the leg in its role slot of the `CONFS` entry and
create the two translator clients once (`if (!st.clientAB) ...`). -/
def attach2 (cs : Registry2) (conf : String) (r : Role) (cid : Nat) : Registry2 :=
  let st := (rlookup cs conf).getD
    { a := none, b := none, clientAB := false, clientBA := false }
  let st1 :=
    match r with
    | Role.a => { st with a := some cid }
    | Role.b => { st with b := some cid }
  rinsert cs conf { st1 with clientAB := true, clientBA := true }

/-- The websocket `close` handler of the pair-registry variant
(src/src/index.ts): clear the departed role's slot; when both slots are now
empty, disconnect `clientAB` and `clientBA` (optional chaining: only if they
were created) and delete the conference entry. Returns the new registry and
the disconnect calls that were made, in order. -/
def close2 (cs : Registry2) (conf : String) (r : Role) :
    Registry2 × List CloseAction :=
  match rlookup cs conf with
  | none => (cs, [])
  | some st =>
    let st1 := clearSlot2 st r
    if st1.a = none ∧ st1.b = none then
      (rerase cs conf,
        (if st1.clientAB then [CloseAction.disconnectAB] else []) ++
          (if st1.clientBA then [CloseAction.disconnectBA] else []))
    else (rinsert cs conf st1, [])

/-- The `start` branch of the pair-registry variant (src/src/index.ts):
`getParam` yields `""` for a missing custom parameter, so a missing role is
rejected there; on a valid key and role the leg is attached. -/
def handleStart2 (cs : Registry2) (confParam roleParam : Option String) (cid : Nat) :
    Registry2 × StartOutcome :=
  let conf := jsOr confParam ""
  let role := jsOr roleParam ""
  if conf = "" ∨ (role ≠ "a" ∧ role ≠ "b") then (cs, StartOutcome.rejected)
  else
    let r := if role = "a" then Role.a else Role.b
    (attach2 cs conf r cid, StartOutcome.accepted conf r)

/-- Registry states reachable through the two mutations the stream handlers of
src/src/routes/streaming.ts perform on `pairs`: attaching a leg on `start`
and detaching it when its socket closes. -/
inductive Reach1 : Registry1 → Prop where
  | empty : Reach1 []
  | attach (ps : Registry1) (conf : String) (r : Role) (cid : Nat) :
      Reach1 ps → Reach1 (attach1 ps conf r cid)
  | detach (ps : Registry1) (conf : String) (r : Role) :
      Reach1 ps → Reach1 (detach1 ps conf r)

/-! ### Registry lemmas -/

theorem rlookup_rerase_ne {α : Type} (ps : List (String × α)) {k k' : String}
    (h : k' ≠ k) : rlookup (rerase ps k) k' = rlookup ps k' := by
  induction ps with
  | nil => rfl
  | cons hd tl ih =>
    obtain ⟨k0, v0⟩ := hd
    by_cases hk : k0 = k
    · subst hk
      simp [rerase, rlookup, ih, Ne.symm h]
    · by_cases hk' : k0 = k'
      · subst hk'
        simp [rerase, rlookup, hk]
      · simp [rerase, rlookup, hk, hk', ih]

theorem rlookup_rerase_self {α : Type} (ps : List (String × α)) (k : String) :
    rlookup (rerase ps k) k = none := by
  induction ps with
  | nil => rfl
  | cons hd tl ih =>
    obtain ⟨k0, v0⟩ := hd
    by_cases hk : k0 = k
    · simp [rerase, hk, ih]
    · simp [rerase, rlookup, hk, ih]

theorem rlookup_rinsert_self {α : Type} (ps : List (String × α)) (k : String) (v : α) :
    rlookup (rinsert ps k v) k = some v := by
  simp [rinsert, rlookup]

theorem rlookup_rinsert_ne {α : Type} (ps : List (String × α)) {k k' : String} (v : α)
    (h : k' ≠ k) : rlookup (rinsert ps k v) k' = rlookup ps k' := by
  simp [rinsert, rlookup, Ne.symm h, rlookup_rerase_ne ps h]

theorem slot1_setSlot1_self (p : Pair1) (r : Role) (cid : Nat) :
    slot1 (setSlot1 p r cid) r = some cid := by
  cases r <;> rfl

theorem slot1_setSlot1_opposite (p : Pair1) (r : Role) (cid : Nat) :
    slot1 (setSlot1 p r cid) (opposite r) = slot1 p (opposite r) := by
  cases r <;> rfl

theorem slot1_clearSlot1_opposite (p : Pair1) (r : Role) :
    slot1 (clearSlot1 p r) (opposite r) = slot1 p (opposite r) := by
  cases r <;> rfl

theorem setSlot1_not_both_none (p : Pair1) (r : Role) (cid : Nat) :
    ¬((setSlot1 p r cid).a = none ∧ (setSlot1 p r cid).b = none) := by
  cases r <;> simp [setSlot1]

theorem both_none_slot1 {q : Pair1} (h : q.a = none ∧ q.b = none) (r : Role) :
    slot1 q r = none := by
  cases r <;> simp [slot1, h.1, h.2]

/-- Every pair held by a reachable registry has at least one occupied slot. -/
theorem reach1_pairs_occupied {ps : Registry1} (hre : Reach1 ps) :
    ∀ conf p, rlookup ps conf = some p → ¬(p.a = none ∧ p.b = none) := by
  induction hre with
  | empty => intro conf p hp; simp [rlookup] at hp
  | attach ps conf r cid _ ih =>
    intro conf' p hp
    by_cases hc : conf' = conf
    · subst hc
      rw [attach1, rlookup_rinsert_self] at hp
      cases hp
      exact setSlot1_not_both_none _ r cid
    · rw [attach1, rlookup_rinsert_ne _ _ hc] at hp
      exact ih conf' p hp
  | detach ps conf r _ ih =>
    intro conf' p hp
    cases hlk : rlookup ps conf with
    | none =>
      simp only [detach1, hlk] at hp
      exact ih conf' p hp
    | some q =>
      simp only [detach1, hlk] at hp
      by_cases hcond : (clearSlot1 q r).a = none ∧ (clearSlot1 q r).b = none
      · rw [if_pos hcond] at hp
        by_cases hc : conf' = conf
        · subst hc; rw [rlookup_rerase_self] at hp; cases hp
        · rw [rlookup_rerase_ne _ hc] at hp; exact ih conf' p hp
      · rw [if_neg hcond] at hp
        by_cases hc : conf' = conf
        · subst hc
          rw [rlookup_rinsert_self] at hp
          cases hp
          exact hcond
        · rw [rlookup_rinsert_ne _ _ hc] at hp
          exact ih conf' p hp

/-! ### Claims about mark processing, chunk accounting and interruption -/

/-- Claim C1, counterexample: after the transport has acknowledged chunk 30 of
item1, an out-of-order mark carrying the lower count 12 is NOT rejected — the
mark handler overwrites `#lastPlayedChunkCount` with 12. -/
theorem C1_counterexample :
    (processMark swInit "item1:30").lastPlayedChunkCount = 30 ∧
    (processMark (processMark swInit "item1:30") "item1:12").lastPlayedChunkCount = 12 ∧
    (12 : ℚ) < 30 := by
  refine ⟨by decide, by decide, by norm_num⟩

/-- Claim C1 (amended): processing a mark whose name does not start with
`"done:"`, contains `':'`, and carries a finite numeric chunk count after the
first `':'` sets `lastPlayedChunkCount` to that count unconditionally
(last write wins, with no monotonicity check), and a mark whose name starts
with `"done:"` resets the counter to 0. -/
theorem C1_marks_lastwrite (st st' : SWState) (name done : String) (count : ℚ)
    (hnotdone : charsPrefix "done:".toList name.toList = false)
    (hcolon : charsContains ':' name.toList = true)
    (hcount : jsNumberOpt ((splitChars ':' name.toList).get? 1) = some count) :
    (processMark st name).lastPlayedChunkCount = count ∧
    (charsPrefix "done:".toList done.toList = true →
      (processMark st' done).lastPlayedChunkCount = 0) := by
  simp [String.toList] at hnotdone hcolon hcount
  constructor
  · simp [processMark, hnotdone, hcolon, hcount]
  · intro h
    simp [String.toList] at h
    simp [processMark, h]

/-- Witness for C1: the amended theorem evaluated at the concrete marks
`"item1:12"` and `"done:item1"`. -/
theorem C1_witness :
    (processMark swInit "item1:12").lastPlayedChunkCount = 12 ∧
    (charsPrefix "done:".toList "done:item1".toList = true →
      (processMark swInit "done:item1").lastPlayedChunkCount = 0) :=
  C1_marks_lastwrite swInit swInit "item1:12" "done:item1" 12
    (by decide) (by decide) (by decide)

/-- Claim C2, counterexample: a first audio delta of a new utterance
(`currentItemId = "item1"` after `#previousItemId = "item0"`) makes `_onAudio`
emit exactly a media frame followed by a tracking mark — no buffer-clear
instruction precedes the audio. -/
theorem C2_counterexample :
    (onAudio { swInit with previousItemId := some "item0" } (some "item1") 160).2
      = [SWOut.media none 160, SWOut.mark none "item1" 20] ∧
    ((onAudio { swInit with previousItemId := some "item0" } (some "item1") 160).2.filter
      SWOut.isClear) = [] := by
  have h : ("item0" : String) ≠ "item1" := by decide
  constructor
  · norm_num [onAudio, swInit, jsTruthy, itemIdString, h]
  · simp [onAudio, SWOut.isClear]

/-- Claim C2 (amended): the transport layer's `_onAudio` never emits a
buffer-clear (a new utterance id only resets the chunk counter; clears come
from the separate `_interrupt` path), while the pair-bridge route clears the
target leg's buffer exactly when the source leg was not already marked
speaking: the first delta then yields a clear followed by the audio, and every
delta while speaking yields the audio alone. -/
theorem C2_clear_policy (st : SWState) (currentItemId : Option String)
    (byteLength : Nat) (delta : String) :
    ((onAudio st currentItemId byteLength).2.filter SWOut.isClear = []) ∧
    onOutputAudioDelta false true delta = (true, [BridgeOut.clear, BridgeOut.media delta]) ∧
    onOutputAudioDelta true true delta = (true, [BridgeOut.media delta]) := by
  refine ⟨?_, rfl, rfl⟩
  simp [onAudio, SWOut.isClear]

/-- Claim C3, counterexample: on a fresh transport where nothing is or was
playing (`#lastPlayedChunkCount = 0`, no outbound item), `_interrupt` is not a
no-op — it still emits a buffer-clear instruction (followed by an upstream
truncation at 50 ms). -/
theorem C3_counterexample :
    interrupt swInit 0 true
      = [InterruptAction.clearSignalWire none, InterruptAction.truncateUpstream 50 true] ∧
    interrupt swInit 0 true ≠ [] := by
  constructor
  · norm_num [interrupt, swInit]
  · simp [interrupt]

/-- Claim C3 (amended): every invocation of `_interrupt` emits exactly one
buffer-clear to the SignalWire socket together with exactly one upstream
truncation whose elapsed-time argument is `lastPlayedChunkCount + 50`
(50 ms buffer allowance); this happens unconditionally — the elapsed time the
caller passes is ignored, and there is no nothing-is-playing no-op guard. -/
theorem C3_interrupt_clear_truncate (st : SWState) (elapsed : ℚ) (cancel : Bool) :
    interrupt st elapsed cancel
      = [InterruptAction.clearSignalWire st.streamSid,
         InterruptAction.truncateUpstream (st.lastPlayedChunkCount + 50) cancel] ∧
    interrupt st elapsed cancel = interrupt st 0 cancel := ⟨rfl, rfl⟩

/-- Claim C6, counterexample: the arrival of a `"done:..."` completion mark
does not reset the per-item outbound chunk counter — `#audioChunkCount` stays
at 5; only `#lastPlayedChunkCount` is reset to 0. -/
theorem C6_counterexample :
    (processMark { swInit with audioChunkCount := 5, previousItemId := some "item1" }
      "done:item1").audioChunkCount = 5 ∧
    (processMark { swInit with audioChunkCount := 5, previousItemId := some "item1" }
      "done:item1").lastPlayedChunkCount = 0 ∧
    (5 : ℚ) ≠ 0 := by
  refine ⟨by decide, by decide, by norm_num⟩

/-- Claim C6 (amended): across successive audio deltas with an unchanged
outbound item id the chunk counter grows by `byteLength / 8` and is therefore
monotonically non-decreasing; it is reset (to 0, before the new chunk's size
is added) exactly when the delta carries a truthy item id different from
`#previousItemId`; a `"done:"` completion mark leaves the chunk counter
unchanged and instead resets `#lastPlayedChunkCount`. -/
theorem C6_chunk_counter (st : SWState) (currentItemId : Option String)
    (byteLength : Nat) (name : String) :
    (currentItemId = st.previousItemId →
      (onAudio st currentItemId byteLength).1.audioChunkCount
          = st.audioChunkCount + (byteLength : ℚ) / 8 ∧
      st.audioChunkCount ≤ (onAudio st currentItemId byteLength).1.audioChunkCount) ∧
    (st.previousItemId ≠ currentItemId → jsTruthy currentItemId = true →
      (onAudio st currentItemId byteLength).1.audioChunkCount = (byteLength : ℚ) / 8) ∧
    (charsPrefix "done:".toList name.toList = true →
      (processMark st name).audioChunkCount = st.audioChunkCount ∧
      (processMark st name).lastPlayedChunkCount = 0) := by
  refine ⟨?_, ?_, ?_⟩
  · intro h
    subst h
    constructor
    · simp [onAudio]
    · simp [onAudio]
      positivity
  · intro h1 h2
    simp [onAudio, h1, h2]
  · intro h
    simp [String.toList] at h
    simp [processMark, h]

/-- Witness for C6: a second 80-byte delta of the same (here: still absent)
item advances the counter from 0 to 10 and does not decrease it. -/
theorem C6_witness :
    (onAudio swInit none 80).1.audioChunkCount = swInit.audioChunkCount + (80 : ℚ) / 8 ∧
    swInit.audioChunkCount ≤ (onAudio swInit none 80).1.audioChunkCount :=
  (C6_chunk_counter swInit none 80 "x").1 rfl

/-! ### Claims about the pairing registry -/

/-- Claim C5: a pair is removed from the registry exactly when both of its
role slots are unattached: (1) no reachable registry state holds a pair whose
two slots are both empty; (2) detaching a leg removes the pair from the
registry if and only if both slots are empty after the departed role's slot is
cleared; (3) detaching one leg while the opposite slot is occupied keeps the
pair registered, with only the departed role's slot cleared. -/
theorem C5_pair_removal_iff (ps : Registry1) (hre : Reach1 ps) :
    (∀ conf p, rlookup ps conf = some p → ¬(p.a = none ∧ p.b = none)) ∧
    (∀ conf r p, rlookup ps conf = some p →
      (rlookup (detach1 ps conf r) conf = none ↔
        (clearSlot1 p r).a = none ∧ (clearSlot1 p r).b = none)) ∧
    (∀ conf r p, rlookup ps conf = some p → slot1 p (opposite r) ≠ none →
      rlookup (detach1 ps conf r) conf = some (clearSlot1 p r)) := by
  refine ⟨reach1_pairs_occupied hre, ?_, ?_⟩
  · intro conf r p hp
    by_cases hcond : (clearSlot1 p r).a = none ∧ (clearSlot1 p r).b = none
    · simp only [detach1, hp, if_pos hcond]
      simp [rlookup_rerase_self, hcond]
    · simp only [detach1, hp, if_neg hcond]
      simp [rlookup_rinsert_self, hcond]
  · intro conf r p hp hopp
    have hcond : ¬((clearSlot1 p r).a = none ∧ (clearSlot1 p r).b = none) := by
      intro hboth
      exact hopp (by rw [← slot1_clearSlot1_opposite p r]; exact both_none_slot1 hboth _)
    simp only [detach1, hp, if_neg hcond]
    exact rlookup_rinsert_self ps conf _

/-- Witness for C5: in the reachable registry obtained by attaching leg 1 as
role A of key "c", the registered pair indeed has an occupied slot. -/
theorem C5_witness :
    ¬((Pair1.mk (some 1) none).a = none ∧ (Pair1.mk (some 1) none).b = none) :=
  (C5_pair_removal_iff (attach1 [] "c" Role.a 1)
    (Reach1.attach [] "c" Role.a 1 Reach1.empty)).1 "c" (Pair1.mk (some 1) none)
    (by decide)

/-- Claim C4: with both legs of key `conf` attached (and the pair's two AI
clients created), closing one leg's socket keeps the pair registered with only
the departed role's slot cleared, the opposite slot untouched, and no AI
client disconnected; closing the remaining leg then disconnects `clientAB` and
`clientBA` exactly once each and removes the pair, after which further closes
for that key do nothing. -/
theorem C4_pair_teardown (cs : Registry2) (conf : String) (r : Role) (st : ConfState)
    (hlk : rlookup cs conf = some st)
    (ha : st.a ≠ none) (hb : st.b ≠ none)
    (hab : st.clientAB = true) (hba : st.clientBA = true) :
    (close2 cs conf r).2 = [] ∧
    rlookup (close2 cs conf r).1 conf = some (clearSlot2 st r) ∧
    slot2 (clearSlot2 st r) (opposite r) = slot2 st (opposite r) ∧
    (close2 (close2 cs conf r).1 conf (opposite r)).2
      = [CloseAction.disconnectAB, CloseAction.disconnectBA] ∧
    rlookup (close2 (close2 cs conf r).1 conf (opposite r)).1 conf = none ∧
    (∀ r', (close2 (close2 (close2 cs conf r).1 conf (opposite r)).1 conf r').2 = []) := by
  have hcond : ¬((clearSlot2 st r).a = none ∧ (clearSlot2 st r).b = none) := by
    cases r <;> simp [clearSlot2, ha, hb]
  have hfst : close2 cs conf r = (rinsert cs conf (clearSlot2 st r), []) := by
    simp only [close2, hlk, if_neg hcond]
  have hlk1 : rlookup (rinsert cs conf (clearSlot2 st r)) conf
      = some (clearSlot2 st r) := rlookup_rinsert_self cs conf _
  have hcond2 : (clearSlot2 (clearSlot2 st r) (opposite r)).a = none ∧
      (clearSlot2 (clearSlot2 st r) (opposite r)).b = none := by
    cases r <;> simp [clearSlot2, opposite]
  have hsnd : close2 (rinsert cs conf (clearSlot2 st r)) conf (opposite r)
      = (rerase (rinsert cs conf (clearSlot2 st r)) conf,
         [CloseAction.disconnectAB, CloseAction.disconnectBA]) := by
    have hclients : (clearSlot2 (clearSlot2 st r) (opposite r)).clientAB = true ∧
        (clearSlot2 (clearSlot2 st r) (opposite r)).clientBA = true := by
      cases r <;> simp [clearSlot2, opposite, hab, hba]
    simp only [close2, hlk1, if_pos hcond2, hclients.1, hclients.2, if_true]
    rfl
  refine ⟨by rw [hfst], by rw [hfst]; exact hlk1, ?_, ?_, ?_, ?_⟩
  · cases r <;> rfl
  · rw [hfst]
    simp only [hsnd]
  · rw [hfst]
    simp only [hsnd]
    exact rlookup_rerase_self _ conf
  · intro r'
    rw [hfst]
    simp only [hsnd]
    simp only [close2, rlookup_rerase_self]

/-- Witness for C4: concretely, with legs 1 and 2 attached under key "c",
closing leg A's socket disconnects no AI client, and closing leg B's socket
then disconnects `clientAB` and `clientBA` once each. -/
theorem C4_witness :
    (close2 [("c", ConfState.mk (some 1) (some 2) true true)] "c" Role.a).2 = [] ∧
    (close2 (close2 [("c", ConfState.mk (some 1) (some 2) true true)] "c" Role.a).1
      "c" (opposite Role.a)).2
      = [CloseAction.disconnectAB, CloseAction.disconnectBA] := by
  have h := C4_pair_teardown [("c", ConfState.mk (some 1) (some 2) true true)] "c"
    Role.a (ConfState.mk (some 1) (some 2) true true)
    (by decide) (by decide) (by decide) (by decide) (by decide)
  exact ⟨h.1, h.2.2.2.1⟩

/-- Claim C7: an inbound media frame that arrives before the leg exists (no
`start` processed yet) or before its AI session socket is created or ready is
dropped: nothing is forwarded to the AI session, no state is kept (the handler
has no queue, so the leg binding is returned unchanged), and the connection is
not closed. -/
theorem C7_media_dropped (leg : Option LegConn) (payload : Option String)
    (h : leg = none ∨ ∃ l, leg = some l ∧ (l.aiWs = false ∨ l.aiReady = false)) :
    handleMedia1 leg payload = (leg, none, false) := by
  rcases h with h | ⟨l, rfl, hl⟩
  · subst h; rfl
  · rcases hl with h | h <;> simp [handleMedia1, h]

/-- Witness for C7: a frame with a real payload arriving while the AI socket
exists but is not yet ready is dropped and the connection stays open. -/
theorem C7_witness :
    handleMedia1 (some (LegConn.mk true false)) (some "audio")
      = (some (LegConn.mk true false), none, false) :=
  C7_media_dropped (some (LegConn.mk true false)) (some "audio")
    (Or.inr ⟨LegConn.mk true false, rfl, Or.inr rfl⟩)

/-- Claim C8: attaching is last-writer-wins per role, in both registry
variants: re-attaching a second leg to an occupied role of the same key leaves
the registry holding exactly the new leg in that role, the opposite role's
slot unchanged, and every other key's entry untouched. -/
theorem C8_attach_lww (ps : Registry1) (cs : Registry2) (conf : String) (r : Role)
    (c1 c2 : Nat) :
    ((rlookup (attach1 (attach1 ps conf r c1) conf r c2) conf).map fun p => slot1 p r)
      = some (some c2) ∧
    ((rlookup (attach1 (attach1 ps conf r c1) conf r c2) conf).map
        fun p => slot1 p (opposite r))
      = ((rlookup (attach1 ps conf r c1) conf).map fun p => slot1 p (opposite r)) ∧
    (∀ k, k ≠ conf → rlookup (attach1 (attach1 ps conf r c1) conf r c2) k
      = rlookup (attach1 ps conf r c1) k) ∧
    ((rlookup (attach2 (attach2 cs conf r c1) conf r c2) conf).map fun st => slot2 st r)
      = some (some c2) ∧
    ((rlookup (attach2 (attach2 cs conf r c1) conf r c2) conf).map
        fun st => slot2 st (opposite r))
      = ((rlookup (attach2 cs conf r c1) conf).map fun st => slot2 st (opposite r)) ∧
    (∀ k, k ≠ conf → rlookup (attach2 (attach2 cs conf r c1) conf r c2) k
      = rlookup (attach2 cs conf r c1) k) := by
  refine ⟨?_, ?_, ?_, ?_, ?_, ?_⟩
  · rw [attach1, rlookup_rinsert_self]
    simp [slot1_setSlot1_self]
  · rw [attach1, rlookup_rinsert_self, attach1, rlookup_rinsert_self]
    simp [slot1_setSlot1_opposite]
  · intro k hk
    rw [attach1, rlookup_rinsert_ne _ _ hk]
  · cases r <;> simp [attach2, rlookup_rinsert_self, slot2]
  · cases r <;> simp [attach2, rlookup_rinsert_self, slot2, opposite]
  · intro k hk
    simp only [attach2]
    rw [rlookup_rinsert_ne _ _ hk]

/-- Witness for C8: re-attaching leg 2 over leg 1 in role A of key "c" leaves
leg 2 registered in role A. -/
theorem C8_witness :
    ((rlookup (attach1 (attach1 [] "c" Role.a 1) "c" Role.a 2) "c").map
      fun p => slot1 p Role.a) = some (some 2) :=
  (C8_attach_lww [] [] "c" Role.a 1 2).1

/-- Claim C9, counterexample: a start event with the non-empty pairing key
"c1" but NO role custom parameter is not rejected by the streaming.ts
handler — it is accepted with the defaulted role A, the leg is registered, and
an AI session is created for the connection. -/
theorem C9_counterexample :
    (handleStart1 [] (some "c1") none 7).2.1 = StartOutcome.accepted "c1" Role.a ∧
    (handleStart1 [] (some "c1") none 7).2.2 = true ∧
    rlookup (handleStart1 [] (some "c1") none 7).1 "c1"
      = some (Pair1.mk (some 7) none) := by
  refine ⟨by decide, by decide, by decide⟩

/-- Claim C9 (amended): a start event whose pairing key is missing or empty,
or whose role parameter is present, non-empty, and not `"a"`/`"b"`, is
rejected by both stream-handler variants: the connection is closed, the
registry is left untouched (no leg registered under any key) and no AI
session is created. (A missing or empty role is instead defaulted to `"a"`
and accepted by the streaming.ts handler; the index.ts variant rejects it.) -/
theorem C9_reject_invalid_start (ps : Registry1) (cs : Registry2)
    (confParam roleParam : Option String) (cid : Nat)
    (h : confParam = none ∨ confParam = some "" ∨
      ∃ r, roleParam = some r ∧ r ≠ "" ∧ r ≠ "a" ∧ r ≠ "b") :
    handleStart1 ps confParam roleParam cid = (ps, StartOutcome.rejected, false) ∧
    handleStart2 cs confParam roleParam cid = (cs, StartOutcome.rejected) := by
  rcases h with h | h | ⟨r, hr, hne, hna, hnb⟩
  · subst h
    constructor <;> simp [handleStart1, handleStart2, jsOr]
  · subst h
    constructor <;> simp [handleStart1, handleStart2, jsOr]
  · subst hr
    constructor <;> simp [handleStart1, handleStart2, jsOr, hne, hna, hnb]

/-- Witness for C9: the start event with key "c1" and role "x" is rejected by
the streaming.ts handler with no registration and no session. -/
theorem C9_witness :
    handleStart1 [] (some "c1") (some "x") 3 = ([], StartOutcome.rejected, false) :=
  (C9_reject_invalid_start [] [] (some "c1") (some "x") 3
    (Or.inr (Or.inr ⟨"x", rfl, by decide, by decide, by decide⟩))).1

/-- Claim C10: in the streaming.ts pair-registry handler, a start event
carrying a non-empty pairing key but no role parameter is accepted: the role
defaults to `"a"`, an AI session is created, and the leg is registered under
role A of that key — overwriting whatever leg occupied role A before. -/
theorem C10_default_role (ps : Registry1) (conf : String) (cid : Nat)
    (h : conf ≠ "") :
    (handleStart1 ps (some conf) none cid).2.1 = StartOutcome.accepted conf Role.a ∧
    (handleStart1 ps (some conf) none cid).2.2 = true ∧
    ((rlookup (handleStart1 ps (some conf) none cid).1 conf).map fun p => p.a)
      = some (some cid) := by
  have hstep : handleStart1 ps (some conf) none cid
      = (attach1 ps conf Role.a cid, StartOutcome.accepted conf Role.a, true) := by
    simp [handleStart1, jsOr, h]
  refine ⟨by rw [hstep], by rw [hstep], ?_⟩
  rw [hstep]
  simp only [attach1, rlookup_rinsert_self, Option.map_some]
  cases hl : rlookup ps conf <;> simp [setSlot1]

/-- Witness for C10: with leg 1 already holding role A of key "c", a start
event for key "c" without a role parameter registers leg 9 in role A,
overwriting leg 1. -/
theorem C10_witness :
    ((rlookup (handleStart1 [("c", Pair1.mk (some 1) none)] (some "c") none 9).1
      "c").map fun p => p.a) = some (some 9) :=
  (C10_default_role [("c", Pair1.mk (some 1) none)] "c" 9 (by decide)).2.2
